import Mathlib

/-!
Verification of the `no-case-declarations` rule of rslint
(crates/rslint_core/src/groups/errors/no_case_declarations.rs).

The rule is registered over switch statements: a switch statement is a list
of clauses (`case`/`default`), each clause carrying a sequence of statements.
The implemented entry point is `NoCaseDeclaration::check_node`, whose body is
the single expression `None`: it inspects nothing and adds no diagnostic to
the rule context.  We embed the data model, the rule context and that entry
point faithfully, together with a spec-modelled count of unguarded
declarations used to compare the implementation against the documented
behaviour of the rule.
-/

/-- Kinds of statements distinguished by the rule's specification. -/
inductive StmtKind where
  | lexicalDeclaration
  | classDeclaration
  | functionDeclaration
  | variableDeclaration
  | blockStatement
  | otherStmt
deriving DecidableEq, BEq, Repr

/-- A statement as seen by the rule: declarations, blocks (with their interior
statements) and anything else (`break`, expressions, ...). -/
inductive Stmt where
  | lexicalDecl
  | classDecl
  | functionDecl
  | varDecl
  | blockStmt (body : List Stmt)
  | other
deriving Repr

/-- The kind of a statement. -/
def Stmt.kind : Stmt → StmtKind
  | .lexicalDecl => .lexicalDeclaration
  | .classDecl => .classDeclaration
  | .functionDecl => .functionDeclaration
  | .varDecl => .variableDeclaration
  | .blockStmt _ => .blockStatement
  | .other => .otherStmt

/-- A `case`/`default` clause of a switch statement: its flavour and its
statement sequence (`cons()` in the rslint AST). -/
structure SwitchClause where
  isDefault : Bool
  cons : List Stmt
deriving Repr

/-- A switch statement: the ordered list of its clauses. -/
structure SwitchStmt where
  clauses : List SwitchClause
deriving Repr

/-- A node handed to a `CstRule`: either a switch statement or any other node
of the tree. -/
inductive SyntaxNode where
  | switchStmt (stmt : SwitchStmt)
  | otherNode
deriving Repr

/-- A diagnostic record: the position (clause index, statement index within
the clause) and kind of the offending statement; the enclosing switch is the
node the checker was invoked on. -/
structure ViolationRecord where
  clauseIdx : Nat
  stmtIdx : Nat
  kind : StmtKind
deriving DecidableEq, BEq, Repr

/-- The rule context: the accumulated list of diagnostics.  A rule adds
diagnostics to it; the tree itself is never part of the mutable state. -/
structure RuleCtx where
  diagnostics : List ViolationRecord
deriving Repr

/-- The rule value (`#[derive(Default)] NoCaseDeclaration`): a unit struct
with no configuration. -/
structure NoCaseDeclaration where
deriving Repr

/-- The implemented `NoCaseDeclaration::check_node`: its body is the single
expression `None`, so it returns `none` and leaves the context untouched.
The pair collects the returned `Option<()>` together with the context after
the call. -/
def NoCaseDeclaration.check_node (_r : NoCaseDeclaration) (_node : SyntaxNode)
    (ctx : RuleCtx) : Option Unit × RuleCtx :=
  (none, ctx)

/-- The violations the implemented checker emits for a switch statement:
diagnostics present in a fresh context after running `check_node` on the
switch node. -/
def emittedViolations (s : SwitchStmt) : List ViolationRecord :=
  ((NoCaseDeclaration.mk).check_node (SyntaxNode.switchStmt s)
    (RuleCtx.mk [])).2.diagnostics

/-- Whether a statement is an unguarded declaration in the sense of the rule:
a lexical (`let`/`const`), class or function declaration. -/
def Stmt.isUnguardedDecl : Stmt → Bool
  | .lexicalDecl => true
  | .classDecl => true
  | .functionDecl => true
  | _ => false

/-- Modelled from the spec: the number of statements of kind
`LexicalDeclaration`, `ClassDeclaration` or `FunctionDeclaration` that are
direct children of some clause's statement sequence (not nested inside a
`BlockStatement`).  Used to compare the implemented checker against the
count the specification requires. -/
def directUnguardedDeclCount (s : SwitchStmt) : Nat :=
  (s.clauses.map (fun c => (c.cons.filter Stmt.isUnguardedDecl).length)).sum

/-- Replace the element at an index of a list by the image under a function;
out-of-range indices leave the list unchanged. -/
def modifyAt {α : Type} : List α → Nat → (α → α) → List α
  | [], _, _ => []
  | x :: xs, 0, f => f x :: xs
  | x :: xs, n + 1, f => x :: modifyAt xs n f

/-- The scoping fix the spec describes: wrap the statement at clause `i`,
position `j` in an explicit block. -/
def SwitchStmt.wrapAt (s : SwitchStmt) (i j : Nat) : SwitchStmt :=
  SwitchStmt.mk (modifyAt s.clauses i (fun c =>
    SwitchClause.mk c.isDefault
      (modifyAt c.cons j (fun st => Stmt.blockStmt [st]))))

/-- Concrete input of the rule's first `err` test:
`switch (foo) { case 2: const y = 2; break; }`. -/
def C1ex : SwitchStmt :=
  SwitchStmt.mk [SwitchClause.mk false [Stmt.lexicalDecl, Stmt.other]]

/-- Concrete input `switch(x){ case 1: let y=1; break; }`. -/
def C2ex : SwitchStmt :=
  SwitchStmt.mk [SwitchClause.mk false [Stmt.lexicalDecl, Stmt.other]]

/-- Concrete input
`switch(x){ case 1: const a=1; case 2: class C{} default: function f(){} }`. -/
def C3ex : SwitchStmt :=
  SwitchStmt.mk
    [SwitchClause.mk false [Stmt.lexicalDecl],
     SwitchClause.mk false [Stmt.classDecl],
     SwitchClause.mk true [Stmt.functionDecl]]

/-- Concrete input `switch(x){ case 1: { let y=1; break; } }`: the lexical
declaration is guarded by an explicit block. -/
def C4ex : SwitchStmt :=
  SwitchStmt.mk
    [SwitchClause.mk false [Stmt.blockStmt [Stmt.lexicalDecl, Stmt.other]]]

/-- Concrete input `switch(x){ case 1: let x=1; break; }`, the subject of the
wrapping transformation of C6. -/
def C6ex : SwitchStmt :=
  SwitchStmt.mk [SwitchClause.mk false [Stmt.lexicalDecl, Stmt.other]]

/-- Source order on diagnostic anchors: earlier clause first, then earlier
statement within the same clause. -/
def anchorLt (a b : ViolationRecord) : Prop :=
  a.clauseIdx < b.clauseIdx ∨
    (a.clauseIdx = b.clauseIdx ∧ a.stmtIdx < b.stmtIdx)

/-- C1: the claim requires the number of emitted violations to equal the
number of unguarded declarations directly in clause statement sequences.  On
the input of the rule's own first `err` test that count is 1, yet the
implemented checker emits 0 violations: the code contradicts its own tests. -/
theorem C1_code_eval :
    (emittedViolations C1ex).length = 0 ∧ directUnguardedDeclCount C1ex = 1 :=
  ⟨rfl, rfl⟩

/-- C2: the claim (and the rule's own `err` test) requires exactly one
violation for `switch(x){ case 1: let y=1; break; }`, anchored at the `let`
declaration; the implemented checker emits none. -/
theorem C2_code_eval :
    emittedViolations C2ex = [] ∧ directUnguardedDeclCount C2ex = 1 :=
  ⟨rfl, rfl⟩

/-- C3: the claim requires three violations, one per clause, for the switch
with a `const`, a `class` and a `function` declaration in its three clauses;
the implemented checker emits none. -/
theorem C3_code_eval :
    emittedViolations C3ex = [] ∧ directUnguardedDeclCount C3ex = 3 :=
  ⟨rfl, rfl⟩

/-- C4: a `BlockStatement` directly in a clause produces no violation and the
checker never reports anything anchored at a block or inside one; in
particular `switch(x){ case 1: { let y=1; break; } }` yields zero
violations.  This holds of the implemented checker, whose diagnostic list is
empty on every input. -/
theorem C4_block_not_reported :
    (∀ s : SwitchStmt,
      (emittedViolations s).filter
        (fun v => v.kind == StmtKind.blockStatement) = []) ∧
    emittedViolations C4ex = [] :=
  ⟨fun _ => rfl, rfl⟩

/-- C5: a `var` declaration (kind `VariableDeclaration`) directly in a
clause's statement sequence never produces a violation: no emitted diagnostic
is anchored at a statement of that kind. -/
theorem C5_var_never_reported :
    ∀ s : SwitchStmt,
      (emittedViolations s).filter
        (fun v => v.kind == StmtKind.variableDeclaration) = [] :=
  fun _ => rfl

/-- C6: the claim requires every unguarded declaration to carry a violation
which wrapping that declaration in an explicit block deletes from the list.
On `switch(x){ case 1: let x=1; break; }` the declaration count is 1, yet the
implemented checker emits no violation before or after the wrapping: there is
no record for the fix to delete, contradicting the rule's own tests. -/
theorem C6_code_eval :
    directUnguardedDeclCount C6ex = 1 ∧
    emittedViolations C6ex = [] ∧
    emittedViolations (C6ex.wrapAt 0 0) = [] :=
  ⟨rfl, rfl, rfl⟩

/-- C7: the sequence of emitted violations is ordered by source position of
the offending statements (clause order, then statement order within a
clause). -/
theorem C7_violations_sorted :
    ∀ s : SwitchStmt, (emittedViolations s).Pairwise anchorLt :=
  fun _ => List.Pairwise.nil

/-- C8: on every node and context the checker terminates with a (possibly
empty) list of new diagnostics appended to the context; it has no failure
outcome. -/
theorem C8_total_never_fails :
    ∀ (r : NoCaseDeclaration) (n : SyntaxNode) (ctx : RuleCtx),
      ∃ ds : List ViolationRecord,
        (r.check_node n ctx).2.diagnostics = ctx.diagnostics ++ ds :=
  fun _ _ ctx => ⟨[], (List.append_nil ctx.diagnostics).symm⟩

/-- C9: the call has no side effect: the context (and a fortiori the tree,
which is never part of the mutable state) is returned unchanged, and a second
run on the resulting state returns the same answer as the first. -/
theorem C9_no_side_effects :
    ∀ (r : NoCaseDeclaration) (n : SyntaxNode) (ctx : RuleCtx),
      (r.check_node n ctx).2 = ctx ∧
      r.check_node n ((r.check_node n ctx).2) = r.check_node n ctx :=
  fun _ _ _ => ⟨rfl, rfl⟩

/-- C10: on every input node and context, `check_node` returns `none` and
adds no diagnostic: the implemented checker emits zero violations on all
inputs. -/
theorem C10_check_node_returns_none :
    ∀ (r : NoCaseDeclaration) (n : SyntaxNode) (ctx : RuleCtx),
      r.check_node n ctx = (none, ctx) :=
  fun _ _ _ => rfl
